import Mathlib

/-!
# MCP tool-dispatch protocol layer: a shallow embedding

This file embeds the JSON-RPC/MCP dispatch endpoints of the repository's
tool servers and proves properties of them.  The embedded dispatchers are:

* `Figma.mcp_post`      — `figma-mcp/app.py`, `mcp_post`
* `Vertex.mcp_post`     — `vertex-ai-mcp/app.py`, `mcp_post`
* `Slide.mcp_post`      — `slide-transform-mcp/app.py`, `mcp_post`
* `NbApp.mcp_post`      — `notebooklm-mcp/app.py`, `mcp_post`
* `NbServer.mcp_handler`— `notebooklm-mcp/server.py`, `mcp_handler`
* `Simli.mcp_handler`   — `simli-mcp/mcp_server.py`, `mcp_handler`

Conventions of the embedding:

* A decoded JSON document is a `Json` value; JSON numbers are `Rat`
  (the only non-integral number in the sources is a literal `0.7`).
* The POST body handed to a dispatcher is `Except String Json`:
  `.ok j` is the value produced by Flask's `request.get_json()`,
  `.error e` is the exception (message `e`) that `get_json()` raises on a
  malformed body.  None of the hand-rolled dispatchers pass `silent=True`.
* A Python exception in the view function is modelled as `HttpReply.raised`;
  Flask then produces a non-JSON-RPC error page, so no JSON-RPC envelope
  reaches the client on that path.
* Each tool implementation ultimately performs a network request, so the
  dispatchers are parameterised by an oracle (`invoke`, `sr`, `net`) giving
  the observable outcome of calling the corresponding Python function:
  `Except.ok r` models the function returning the mapping `r`,
  `Except.error e` models the call raising an exception with text `e`
  (including a `TypeError` from `**`-unpacking keyword arguments).
  Everything outside those oracle calls is translated from the source.
-/

/-- A decoded JSON value, as produced by Python's `json` module / Flask's
`request.get_json()`.  Object member order is the (insertion-ordered)
Python `dict` order; decoded dicts have unique keys. -/
inductive Json where
  | null
  | bool (b : Bool)
  | num (q : Rat)
  | str (s : String)
  | arr (elems : List Json)
  | obj (members : List (String × Json))

/-- Key lookup in the member list of a decoded JSON object (Python
`dict.__getitem__` / `dict.get`; decoded dicts have unique keys). -/
def jlookup : List (String × Json) → String → Option Json
  | [], _ => none
  | (k, v) :: rest, key => if k == key then some v else jlookup rest key

/-- `jget j key` is `j[key]` when `j` is an object containing `key`. -/
def jget : Json → String → Option Json
  | .obj ms, key => jlookup ms key
  | _, _ => none

/-- Python `j.get(key, d)`: the stored value when the key is present
(even if that value is `null`), otherwise the default `d`. -/
def jgetD (j : Json) (key : String) (d : Json) : Json := (jget j key).getD d

/-- Python `x == s` for a decoded value `x` and a string literal `s`:
true exactly when `x` is that string. -/
def Json.isS : Json → String → Bool
  | .str t, s => t == s
  | _, _ => false

/-- Whether the decoded value is a Python `dict`. -/
def Json.isObj : Json → Bool
  | .obj _ => true
  | _ => false

/-- Whether the decoded value is a Python `list`. -/
def Json.isArr : Json → Bool
  | .arr _ => true
  | _ => false

/-- Python type name of a decoded JSON value, as it appears in
`AttributeError` messages. -/
def pyType : Json → String
  | .null => "NoneType"
  | .bool _ => "bool"
  | .num q => if q.den = 1 then "int" else "float"
  | .str _ => "str"
  | .arr _ => "list"
  | .obj _ => "dict"

/-- Python truthiness of a decoded JSON value. -/
def pyTruthy : Json → Bool
  | .null => false
  | .bool b => b
  | .num q => !(q == 0)
  | .str s => !(s == "")
  | .arr xs => !xs.isEmpty
  | .obj ms => !ms.isEmpty

/-- `str(e)` of the `AttributeError` raised by `x.get(...)` when `x` is
not a dict (e.g. `\x27list\x27 object has no attribute \x27get\x27`). -/
def attrGetMsg (j : Json) : String :=
  "\x27" ++ pyType j ++ "\x27 object has no attribute \x27get\x27"

/-- `str(e)` of the `TypeError` raised by `x in some_dict` when `x` is an
unhashable value of Python type `t`. -/
def unhashableMsg (t : String) : String := "unhashable type: \x27" ++ t ++ "\x27"

/-- Lower-case hexadecimal digit, for `\uXXXX` escapes. -/
def hexDigitChar (n : Nat) : Char :=
  if n < 10 then Char.ofNat (48 + n) else Char.ofNat (87 + n)

/-- A `\uXXXX` escape as produced by Python's `json.dumps`. -/
def uEscape (n : Nat) : String :=
  "\\u" ++ String.mk [hexDigitChar (n / 4096 % 16), hexDigitChar (n / 256 % 16),
    hexDigitChar (n / 16 % 16), hexDigitChar (n % 16)]

/-- Escaping of one character inside a JSON string, following Python's
`json.dumps` with its default `ensure_ascii=True`. -/
def escapeChar (c : Char) : String :=
  if c = Char.ofNat 34 then "\\\""
  else if c = Char.ofNat 92 then "\\\\"
  else if c = Char.ofNat 10 then "\\n"
  else if c = Char.ofNat 9 then "\\t"
  else if c = Char.ofNat 13 then "\\r"
  else if c = Char.ofNat 8 then "\\b"
  else if c = Char.ofNat 12 then "\\f"
  else if c.toNat < 32 then uEscape c.toNat
  else if c.toNat < 128 then String.singleton c
  else if c.toNat < 65536 then uEscape c.toNat
  else uEscape (55296 + (c.toNat - 65536) / 1024) ++ uEscape (56320 + (c.toNat - 65536) % 1024)

/-- A JSON string literal with surrounding quotes, as `json.dumps` emits it. -/
def quoteJson (s : String) : String :=
  "\"" ++ String.join (s.data.map escapeChar) ++ "\""

/-- `n` spaces of indentation. -/
def spaces : Nat → String
  | 0 => ""
  | n + 1 => " " ++ spaces n

/-- Zero left-padding to width `w`, for decimal fraction digits. -/
def padLeftZeros (w : Nat) (s : String) : String :=
  String.mk (List.replicate (w - s.length) (Char.ofNat 48)) ++ s

/-- Rendering of a JSON number the way Python prints it: integers without
a decimal point, and the decimal literals occurring in the sources
(e.g. `0.7`) in decimal notation. -/
def renderNum (q : Rat) : String :=
  if q.den = 1 then toString q.num
  else
    match (List.range 17).find? (fun k => (q * (10 : Rat) ^ (k + 1)).den = 1) with
    | some k =>
        let m := (q * (10 : Rat) ^ (k + 1)).num
        let sign := if m < 0 then "-" else ""
        let a := m.natAbs
        let w := 10 ^ (k + 1)
        sign ++ toString (a / w) ++ "." ++ padLeftZeros (k + 1) (toString (a % w))
    | none => toString q.num ++ "/" ++ toString q.den

mutual

/-- Python `json.dumps(x, indent=2)` at indentation level `lvl` (with an
indent, `json.dumps` uses `","` and `": "` as separators and puts every
item on its own indented line). -/
def dumpsVal (lvl : Nat) : Json → String
  | .null => "null"
  | .bool true => "true"
  | .bool false => "false"
  | .num q => renderNum q
  | .str s => quoteJson s
  | .arr [] => "[]"
  | .arr (x :: xs) =>
      "[\n" ++ spaces (2 * (lvl + 1)) ++ dumpsVal (lvl + 1) x ++ dumpsElems (lvl + 1) xs
        ++ "\n" ++ spaces (2 * lvl) ++ "]"
  | .obj [] => "\x7b\x7d"
  | .obj ((k, v) :: kvs) =>
      "\x7b\n" ++ spaces (2 * (lvl + 1)) ++ quoteJson k ++ ": " ++ dumpsVal (lvl + 1) v
        ++ dumpsMembers (lvl + 1) kvs ++ "\n" ++ spaces (2 * lvl) ++ "\x7d"

/-- Remaining array elements for `dumpsVal`. -/
def dumpsElems (lvl : Nat) : List Json → String
  | [] => ""
  | x :: xs => ",\n" ++ spaces (2 * lvl) ++ dumpsVal lvl x ++ dumpsElems lvl xs

/-- Remaining object members for `dumpsVal`. -/
def dumpsMembers (lvl : Nat) : List (String × Json) → String
  | [] => ""
  | (k, v) :: kvs =>
      ",\n" ++ spaces (2 * lvl) ++ quoteJson k ++ ": " ++ dumpsVal lvl v ++ dumpsMembers lvl kvs

end

/-- Python `json.dumps(x, indent=2)` as used by the dispatchers to
serialize a tool result into the text content block. -/
def dumpsIndent2 (j : Json) : String := dumpsVal 0 j

mutual

/-- Python `json.dumps(x)` with default separators `", "` and `": "`
(used by `notebooklm-mcp/server.py`). -/
def dumpC : Json → String
  | .null => "null"
  | .bool true => "true"
  | .bool false => "false"
  | .num q => renderNum q
  | .str s => quoteJson s
  | .arr [] => "[]"
  | .arr (x :: xs) => "[" ++ dumpC x ++ dumpCElems xs ++ "]"
  | .obj [] => "\x7b\x7d"
  | .obj ((k, v) :: kvs) => "\x7b" ++ quoteJson k ++ ": " ++ dumpC v ++ dumpCMembers kvs ++ "\x7d"

/-- Remaining array elements for `dumpC`. -/
def dumpCElems : List Json → String
  | [] => ""
  | x :: xs => ", " ++ dumpC x ++ dumpCElems xs

/-- Remaining object members for `dumpC`. -/
def dumpCMembers : List (String × Json) → String
  | [] => ""
  | (k, v) :: kvs => ", " ++ quoteJson k ++ ": " ++ dumpC v ++ dumpCMembers kvs

end

/-- Escaping of one character inside a Python `repr` of a string
(single-quoted).  The quote-switching Python applies when the string itself
contains a single quote is not modelled; no embedded string does. -/
def reprEscChar (c : Char) : String :=
  if c = Char.ofNat 92 then "\\\\"
  else if c = Char.ofNat 39 then "\\\x27"
  else if c = Char.ofNat 10 then "\\n"
  else if c = Char.ofNat 9 then "\\t"
  else if c = Char.ofNat 13 then "\\r"
  else String.singleton c

/-- Python `repr` of a string (single-quoted). -/
def reprQuote (s : String) : String :=
  "\x27" ++ String.join (s.data.map reprEscChar) ++ "\x27"

mutual

/-- Python `repr(x)` of a decoded JSON value. -/
def pyRepr : Json → String
  | .null => "None"
  | .bool true => "True"
  | .bool false => "False"
  | .num q => renderNum q
  | .str s => reprQuote s
  | .arr [] => "[]"
  | .arr (x :: xs) => "[" ++ pyRepr x ++ pyReprElems xs ++ "]"
  | .obj [] => "\x7b\x7d"
  | .obj ((k, v) :: ms) => "\x7b" ++ reprQuote k ++ ": " ++ pyRepr v ++ pyReprMembers ms ++ "\x7d"

/-- Remaining list elements for `pyRepr`. -/
def pyReprElems : List Json → String
  | [] => ""
  | x :: xs => ", " ++ pyRepr x ++ pyReprElems xs

/-- Remaining dict members for `pyRepr`. -/
def pyReprMembers : List (String × Json) → String
  | [] => ""
  | (k, v) :: ms => ", " ++ reprQuote k ++ ": " ++ pyRepr v ++ pyReprMembers ms

end

/-- Python `str(x)` of a decoded JSON value, as interpolated by f-strings
such as `f"Unknown tool: \x7bname\x7d"`. -/
def pyStr : Json → String
  | .str s => s
  | j => pyRepr j

/-- The observable outcome of one POST to a dispatch endpoint:
a JSON body with an HTTP status (Flask `jsonify` returns 200 unless a
status is given), an empty body with a status (simli's `return "", 204`),
or an exception escaping the view function — Flask then renders a plain
error page, so no JSON-RPC envelope is produced. -/
inductive HttpReply where
  | json (body : Json) (status : Nat)
  | empty (status : Nat)
  | raised (msg : String)

/-- The JSON-RPC result envelope literal the servers build:
`\x7b"jsonrpc": "2.0", "id": rid, "result": result\x7d`. -/
def resultEnvelope (rid result : Json) : Json :=
  .obj [("jsonrpc", .str "2.0"), ("id", rid), ("result", result)]

/-- The JSON-RPC error envelope literal the servers build:
`\x7b"jsonrpc": "2.0", "id": rid, "error": \x7b"code": code, "message": msg\x7d\x7d`. -/
def errorEnvelope (rid : Json) (code : Rat) (msg : String) : Json :=
  .obj [("jsonrpc", .str "2.0"), ("id", rid),
    ("error", .obj [("code", .num code), ("message", .str msg)])]

/-- The `result` payload wrapping a serialized tool outcome:
`\x7b"content": [\x7b"type": "text", "text": text\x7d]\x7d`. -/
def textContentResult (text : String) : Json :=
  .obj [("content", .arr [.obj [("type", .str "text"), ("text", .str text)]])]

/-- A client JSON-RPC request carrying only a method (and an id). -/
def rpcReq (rid : Json) (method : String) : Json :=
  .obj [("jsonrpc", .str "2.0"), ("id", rid), ("method", .str method)]

/-- A client `tools/call` request. -/
def toolCallReq (rid name args : Json) : Json :=
  .obj [("jsonrpc", .str "2.0"), ("id", rid), ("method", .str "tools/call"),
    ("params", .obj [("name", name), ("arguments", args)])]

/-- The `error.code` of a reply, when the reply is a JSON body whose
`error` member is an object with a numeric `code`. -/
def respErrorCode (r : HttpReply) : Option Rat :=
  match r with
  | .json env _ =>
      match jget env "error" with
      | some errObj =>
          match jget errObj "code" with
          | some (.num c) => some c
          | _ => none
      | none => none
  | _ => none

/-- The `id` member of a JSON-body reply. -/
def respId (r : HttpReply) : Option Json :=
  match r with
  | .json env _ => jget env "id"
  | _ => none

/-- `strContains needle hay`: `needle` occurs contiguously in `hay`. -/
def strContains (needle hay : String) : Prop := ∃ p r, hay = p ++ needle ++ r

/-- An occurrence in `a` is an occurrence in `a ++ b`. -/
theorem strContains_extend (n a b : String) (h : strContains n a) : strContains n (a ++ b) := by
  obtain ⟨p, r, hpr⟩ := h
  exact ⟨p, r ++ b, by rw [hpr]; simp [String.append_assoc]⟩

namespace Figma

/-- The `MCP_TOOLS` catalog of `figma-mcp/app.py`. -/
def MCP_TOOLS : List Json := [
  .obj [("name", .str "get_file"),
    ("description", .str "Get a Figma file by key. Returns file structure, components, and metadata."),
    ("inputSchema", .obj [("type", .str "object"),
      ("properties", .obj [
        ("file_key", .obj [("type", .str "string"), ("description", .str "The Figma file key (from URL)")]),
        ("depth", .obj [("type", .str "integer"), ("description", .str "Depth of nodes to return (default: 2)"), ("default", .num 2)])]),
      ("required", .arr [.str "file_key"])])],
  .obj [("name", .str "get_file_nodes"),
    ("description", .str "Get specific nodes from a Figma file by their IDs."),
    ("inputSchema", .obj [("type", .str "object"),
      ("properties", .obj [
        ("file_key", .obj [("type", .str "string"), ("description", .str "The Figma file key")]),
        ("node_ids", .obj [("type", .str "string"), ("description", .str "Comma-separated node IDs")])]),
      ("required", .arr [.str "file_key", .str "node_ids"])])],
  .obj [("name", .str "export_nodes"),
    ("description", .str "Export nodes as images (PNG, SVG, PDF, JPG)."),
    ("inputSchema", .obj [("type", .str "object"),
      ("properties", .obj [
        ("file_key", .obj [("type", .str "string"), ("description", .str "The Figma file key")]),
        ("node_ids", .obj [("type", .str "string"), ("description", .str "Comma-separated node IDs to export")]),
        ("format", .obj [("type", .str "string"), ("enum", .arr [.str "png", .str "svg", .str "pdf", .str "jpg"]), ("default", .str "png")]),
        ("scale", .obj [("type", .str "number"), ("description", .str "Scale factor (0.01 to 4)"), ("default", .num 2)])]),
      ("required", .arr [.str "file_key", .str "node_ids"])])],
  .obj [("name", .str "get_components"),
    ("description", .str "Get all components from a Figma file or team library."),
    ("inputSchema", .obj [("type", .str "object"),
      ("properties", .obj [
        ("file_key", .obj [("type", .str "string"), ("description", .str "The Figma file key")])]),
      ("required", .arr [.str "file_key"])])],
  .obj [("name", .str "get_styles"),
    ("description", .str "Get all styles (colors, text, effects) from a Figma file."),
    ("inputSchema", .obj [("type", .str "object"),
      ("properties", .obj [
        ("file_key", .obj [("type", .str "string"), ("description", .str "The Figma file key")])]),
      ("required", .arr [.str "file_key"])])],
  .obj [("name", .str "list_files"),
    ("description", .str "List files in a Figma project."),
    ("inputSchema", .obj [("type", .str "object"),
      ("properties", .obj [
        ("project_id", .obj [("type", .str "string"), ("description", .str "The Figma project ID")])]),
      ("required", .arr [.str "project_id"])])],
  .obj [("name", .str "list_projects"),
    ("description", .str "List projects in a Figma team."),
    ("inputSchema", .obj [("type", .str "object"),
      ("properties", .obj [
        ("team_id", .obj [("type", .str "string"), ("description", .str "The Figma team ID")])]),
      ("required", .arr [.str "team_id"])])],
  .obj [("name", .str "get_me"),
    ("description", .str "Get current user info and verify API connection."),
    ("inputSchema", .obj [("type", .str "object"), ("properties", .obj [])])],
  .obj [("name", .str "create_comment"),
    ("description", .str "Add a comment to a Figma file."),
    ("inputSchema", .obj [("type", .str "object"),
      ("properties", .obj [
        ("file_key", .obj [("type", .str "string"), ("description", .str "The Figma file key")]),
        ("message", .obj [("type", .str "string"), ("description", .str "Comment text")]),
        ("x", .obj [("type", .str "number"), ("description", .str "X coordinate (optional)")]),
        ("y", .obj [("type", .str "number"), ("description", .str "Y coordinate (optional)")]),
        ("node_id", .obj [("type", .str "string"), ("description", .str "Node to attach comment to (optional)")])]),
      ("required", .arr [.str "file_key", .str "message"])])],
  .obj [("name", .str "get_comments"),
    ("description", .str "Get all comments from a Figma file."),
    ("inputSchema", .obj [("type", .str "object"),
      ("properties", .obj [
        ("file_key", .obj [("type", .str "string"), ("description", .str "The Figma file key")])]),
      ("required", .arr [.str "file_key"])])]]

/-- The keys of the `tool_map` dict built inside `mcp_post` of
`figma-mcp/app.py`, in source order. -/
def toolNames : List String :=
  ["get_file", "get_file_nodes", "export_nodes", "get_components", "get_styles",
   "list_files", "list_projects", "get_me", "create_comment", "get_comments"]

/-- The fixed `result` of the `initialize` branch of `figma-mcp/app.py`. -/
def initResult : Json :=
  .obj [("protocolVersion", .str "2024-11-05"),
    ("serverInfo", .obj [("name", .str "figma-mcp"), ("version", .str "1.0.0")]),
    ("capabilities", .obj [("tools", .obj [])])]

/-- `mcp_post` of `figma-mcp/app.py` (lines 199-251).  `invoke s args` is
the outcome of evaluating `tool_map[s](**args)`.  There is no
`notifications/initialized` branch in this file, and no try/except around
the handler call. -/
def mcp_post (invoke : String → Json → Except String Json) (body : Except String Json) : HttpReply :=
  match body with
  | .error e => .raised e
  | .ok data =>
    if data.isObj then
      let method := jgetD data "method" (.str "")
      let params := jgetD data "params" (.obj [])
      let rid := jgetD data "id" .null
      if method.isS "initialize" then
        .json (resultEnvelope rid initResult) 200
      else if method.isS "tools/list" then
        .json (resultEnvelope rid (.obj [("tools", .arr MCP_TOOLS)])) 200
      else if method.isS "tools/call" then
        if params.isObj then
          let name := jgetD params "name" .null
          let args := jgetD params "arguments" (.obj [])
          match name with
          | .arr _ => .raised (unhashableMsg "list")
          | .obj _ => .raised (unhashableMsg "dict")
          | .str s =>
            if s ∈ toolNames then
              match invoke s args with
              | .error e => .raised e
              | .ok result => .json (resultEnvelope rid (textContentResult (dumpsIndent2 result))) 200
            else
              .json (resultEnvelope rid (textContentResult
                (dumpsIndent2 (.obj [("error", .str ("Unknown tool: " ++ s))])))) 200
          | other =>
            .json (resultEnvelope rid (textContentResult
              (dumpsIndent2 (.obj [("error", .str ("Unknown tool: " ++ pyStr other))])))) 200
        else .raised (attrGetMsg params)
      else if method.isS "ping" then
        .json (resultEnvelope rid (.obj [])) 200
      else
        .json (errorEnvelope rid (-32601) "Method not found") 200
    else .raised (attrGetMsg data)

end Figma

namespace Vertex

/-- The `MCP_TOOLS` catalog of `vertex-ai-mcp/app.py`. -/
def MCP_TOOLS : List Json := [
  .obj [("name", .str "gemini_generate"),
    ("description", .str "Generate text content using Gemini models. Supports gemini-2.0-flash-exp, gemini-1.5-pro, gemini-1.5-flash."),
    ("inputSchema", .obj [("type", .str "object"),
      ("properties", .obj [
        ("prompt", .obj [("type", .str "string"), ("description", .str "The prompt to generate content from")]),
        ("model", .obj [("type", .str "string"), ("default", .str "gemini-2.0-flash-exp"), ("description", .str "Model to use")]),
        ("temperature", .obj [("type", .str "number"), ("default", .num 0.7), ("description", .str "Temperature (0-1)")]),
        ("max_tokens", .obj [("type", .str "integer"), ("default", .num 8192), ("description", .str "Max output tokens")])]),
      ("required", .arr [.str "prompt"])])],
  .obj [("name", .str "gemini_chat"),
    ("description", .str "Multi-turn chat conversation with Gemini."),
    ("inputSchema", .obj [("type", .str "object"),
      ("properties", .obj [
        ("messages", .obj [("type", .str "array"), ("description", .str "Array of \x7brole, content\x7d messages")]),
        ("model", .obj [("type", .str "string"), ("default", .str "gemini-2.0-flash-exp")]),
        ("system_instruction", .obj [("type", .str "string"), ("description", .str "System prompt")])]),
      ("required", .arr [.str "messages"])])],
  .obj [("name", .str "gemini_analyze_image"),
    ("description", .str "Analyze an image using Gemini\x27s multimodal capabilities."),
    ("inputSchema", .obj [("type", .str "object"),
      ("properties", .obj [
        ("image_base64", .obj [("type", .str "string"), ("description", .str "Base64-encoded image")]),
        ("prompt", .obj [("type", .str "string"), ("description", .str "Analysis prompt"), ("default", .str "Describe this image in detail")]),
        ("model", .obj [("type", .str "string"), ("default", .str "gemini-2.0-flash-exp")])]),
      ("required", .arr [.str "image_base64"])])],
  .obj [("name", .str "gemini_analyze_document"),
    ("description", .str "Analyze a document (PDF pages as images) using Gemini."),
    ("inputSchema", .obj [("type", .str "object"),
      ("properties", .obj [
        ("document_text", .obj [("type", .str "string"), ("description", .str "Document text content")]),
        ("analysis_prompt", .obj [("type", .str "string"), ("description", .str "What to analyze")]),
        ("model", .obj [("type", .str "string"), ("default", .str "gemini-1.5-pro")])]),
      ("required", .arr [.str "document_text", .str "analysis_prompt"])])],
  .obj [("name", .str "imagen_generate"),
    ("description", .str "Generate images using Imagen 3. Returns base64-encoded images."),
    ("inputSchema", .obj [("type", .str "object"),
      ("properties", .obj [
        ("prompt", .obj [("type", .str "string"), ("description", .str "Text description of image to generate")]),
        ("number_of_images", .obj [("type", .str "integer"), ("default", .num 1), ("description", .str "Number of images (1-4)")]),
        ("aspect_ratio", .obj [("type", .str "string"), ("default", .str "1:1"), ("enum", .arr [.str "1:1", .str "9:16", .str "16:9", .str "3:4", .str "4:3"])]),
        ("negative_prompt", .obj [("type", .str "string"), ("description", .str "What to avoid in the image")])]),
      ("required", .arr [.str "prompt"])])],
  .obj [("name", .str "imagen_edit"),
    ("description", .str "Edit an existing image using Imagen."),
    ("inputSchema", .obj [("type", .str "object"),
      ("properties", .obj [
        ("image_base64", .obj [("type", .str "string"), ("description", .str "Base64-encoded source image")]),
        ("prompt", .obj [("type", .str "string"), ("description", .str "Edit instructions")]),
        ("mask_base64", .obj [("type", .str "string"), ("description", .str "Optional mask for inpainting")])]),
      ("required", .arr [.str "image_base64", .str "prompt"])])],
  .obj [("name", .str "vision_ocr"),
    ("description", .str "Extract text from an image using Cloud Vision OCR."),
    ("inputSchema", .obj [("type", .str "object"),
      ("properties", .obj [
        ("image_base64", .obj [("type", .str "string"), ("description", .str "Base64-encoded image")]),
        ("language_hints", .obj [("type", .str "array"), ("items", .obj [("type", .str "string")]), ("description", .str "Language hints (e.g., [\x27en\x27, \x27ja\x27])")])]),
      ("required", .arr [.str "image_base64"])])],
  .obj [("name", .str "vision_detect_labels"),
    ("description", .str "Detect labels/objects in an image."),
    ("inputSchema", .obj [("type", .str "object"),
      ("properties", .obj [
        ("image_base64", .obj [("type", .str "string"), ("description", .str "Base64-encoded image")]),
        ("max_results", .obj [("type", .str "integer"), ("default", .num 10)])]),
      ("required", .arr [.str "image_base64"])])],
  .obj [("name", .str "vision_detect_objects"),
    ("description", .str "Detect and localize objects in an image with bounding boxes."),
    ("inputSchema", .obj [("type", .str "object"),
      ("properties", .obj [
        ("image_base64", .obj [("type", .str "string"), ("description", .str "Base64-encoded image")])]),
      ("required", .arr [.str "image_base64"])])],
  .obj [("name", .str "vision_detect_faces"),
    ("description", .str "Detect faces and facial attributes in an image."),
    ("inputSchema", .obj [("type", .str "object"),
      ("properties", .obj [
        ("image_base64", .obj [("type", .str "string"), ("description", .str "Base64-encoded image")])]),
      ("required", .arr [.str "image_base64"])])],
  .obj [("name", .str "vision_detect_logos"),
    ("description", .str "Detect logos/brands in an image."),
    ("inputSchema", .obj [("type", .str "object"),
      ("properties", .obj [
        ("image_base64", .obj [("type", .str "string"), ("description", .str "Base64-encoded image")])]),
      ("required", .arr [.str "image_base64"])])],
  .obj [("name", .str "document_parse_pdf"),
    ("description", .str "Parse a PDF document and extract structured text, tables, and form fields using Document AI."),
    ("inputSchema", .obj [("type", .str "object"),
      ("properties", .obj [
        ("pdf_base64", .obj [("type", .str "string"), ("description", .str "Base64-encoded PDF")]),
        ("processor_id", .obj [("type", .str "string"), ("description", .str "Document AI processor ID (optional, uses default OCR)")])]),
      ("required", .arr [.str "pdf_base64"])])],
  .obj [("name", .str "document_extract_tables"),
    ("description", .str "Extract tables from a document image or PDF page."),
    ("inputSchema", .obj [("type", .str "object"),
      ("properties", .obj [
        ("image_base64", .obj [("type", .str "string"), ("description", .str "Base64-encoded image of document page")])]),
      ("required", .arr [.str "image_base64"])])],
  .obj [("name", .str "list_models"),
    ("description", .str "List available Vertex AI models."),
    ("inputSchema", .obj [("type", .str "object"), ("properties", .obj [])])]]

/-- The keys of the `tool_map` dict built inside `mcp_post` of
`vertex-ai-mcp/app.py`, in source order. -/
def toolNames : List String :=
  ["gemini_generate", "gemini_chat", "gemini_analyze_image", "gemini_analyze_document",
   "imagen_generate", "imagen_edit", "vision_ocr", "vision_detect_labels",
   "vision_detect_objects", "vision_detect_faces", "vision_detect_logos",
   "document_parse_pdf", "document_extract_tables", "list_models"]

/-- The fixed `result` of the `initialize` branch of `vertex-ai-mcp/app.py`. -/
def initResult : Json :=
  .obj [("protocolVersion", .str "2024-11-05"),
    ("serverInfo", .obj [("name", .str "vertex-ai-mcp"), ("version", .str "2.0.0")]),
    ("capabilities", .obj [("tools", .obj [])])]

/-- `mcp_post` of `vertex-ai-mcp/app.py` (lines 499-555); identical
dispatch structure to `Figma.mcp_post` with its own `tool_map`. -/
def mcp_post (invoke : String → Json → Except String Json) (body : Except String Json) : HttpReply :=
  match body with
  | .error e => .raised e
  | .ok data =>
    if data.isObj then
      let method := jgetD data "method" (.str "")
      let params := jgetD data "params" (.obj [])
      let rid := jgetD data "id" .null
      if method.isS "initialize" then
        .json (resultEnvelope rid initResult) 200
      else if method.isS "tools/list" then
        .json (resultEnvelope rid (.obj [("tools", .arr MCP_TOOLS)])) 200
      else if method.isS "tools/call" then
        if params.isObj then
          let name := jgetD params "name" .null
          let args := jgetD params "arguments" (.obj [])
          match name with
          | .arr _ => .raised (unhashableMsg "list")
          | .obj _ => .raised (unhashableMsg "dict")
          | .str s =>
            if s ∈ toolNames then
              match invoke s args with
              | .error e => .raised e
              | .ok result => .json (resultEnvelope rid (textContentResult (dumpsIndent2 result))) 200
            else
              .json (resultEnvelope rid (textContentResult
                (dumpsIndent2 (.obj [("error", .str ("Unknown tool: " ++ s))])))) 200
          | other =>
            .json (resultEnvelope rid (textContentResult
              (dumpsIndent2 (.obj [("error", .str ("Unknown tool: " ++ pyStr other))])))) 200
        else .raised (attrGetMsg params)
      else if method.isS "ping" then
        .json (resultEnvelope rid (.obj [])) 200
      else
        .json (errorEnvelope rid (-32601) "Method not found") 200
    else .raised (attrGetMsg data)

end Vertex

namespace Slide

/-- The `MCP_TOOLS` catalog of `slide-transform-mcp/app.py`. -/
def MCP_TOOLS : List Json := [
  .obj [("name", .str "vectorize_image"),
    ("description", .str "Convert a raster image (PNG/JPG) to vector SVG using Vectorizer.AI. Returns SVG content."),
    ("inputSchema", .obj [("type", .str "object"),
      ("properties", .obj [
        ("image_url", .obj [("type", .str "string"), ("description", .str "URL of the image to vectorize")]),
        ("image_base64", .obj [("type", .str "string"), ("description", .str "Base64-encoded image data (alternative to URL)")]),
        ("output_format", .obj [("type", .str "string"), ("enum", .arr [.str "svg", .str "pdf", .str "eps", .str "dxf"]), ("default", .str "svg")]),
        ("processing_mode", .obj [("type", .str "string"), ("enum", .arr [.str "production", .str "preview"]), ("default", .str "production")])])])],
  .obj [("name", .str "remove_background"),
    ("description", .str "Remove background from an image using remove.bg API. Returns PNG with transparent background."),
    ("inputSchema", .obj [("type", .str "object"),
      ("properties", .obj [
        ("image_url", .obj [("type", .str "string"), ("description", .str "URL of the image")]),
        ("image_base64", .obj [("type", .str "string"), ("description", .str "Base64-encoded image data")])])])],
  .obj [("name", .str "analyze_slide_for_redesign"),
    ("description", .str "Analyze a slide image and return suggestions for redesign including color scheme, layout, and graphics improvements."),
    ("inputSchema", .obj [("type", .str "object"),
      ("properties", .obj [
        ("image_base64", .obj [("type", .str "string"), ("description", .str "Base64-encoded slide image")]),
        ("brand_colors", .obj [("type", .str "string"), ("description", .str "Brand colors to use (e.g., \x27#003366,#FF6600\x27)")]),
        ("style", .obj [("type", .str "string"), ("enum", .arr [.str "corporate", .str "modern", .str "minimal", .str "bold"]), ("default", .str "corporate")])]),
      ("required", .arr [.str "image_base64"])])],
  .obj [("name", .str "extract_slide_elements"),
    ("description", .str "Extract text and graphic elements from a slide image for reconstruction."),
    ("inputSchema", .obj [("type", .str "object"),
      ("properties", .obj [
        ("image_base64", .obj [("type", .str "string"), ("description", .str "Base64-encoded slide image")])]),
      ("required", .arr [.str "image_base64"])])],
  .obj [("name", .str "get_credits_balance"),
    ("description", .str "Check remaining Vectorizer.AI API credits."),
    ("inputSchema", .obj [("type", .str "object"), ("properties", .obj [])])]]

/-- The fixed `result` of the `initialize` branch of `slide-transform-mcp/app.py`. -/
def initResult : Json :=
  .obj [("protocolVersion", .str "2024-11-05"),
    ("serverInfo", .obj [("name", .str "slide-transform-mcp"), ("version", .str "1.0.0")]),
    ("capabilities", .obj [("tools", .obj [])])]

/-- `mcp_post` of `slide-transform-mcp/app.py` (lines 233-280).  The
`tools/call` branch is a chain of `==` comparisons; `get_credits_balance`
is called with no arguments; the unknown-tool text carries no name, and
there is no `notifications/initialized` branch. -/
def mcp_post (invoke : String → Json → Except String Json) (body : Except String Json) : HttpReply :=
  match body with
  | .error e => .raised e
  | .ok data =>
    if data.isObj then
      let method := jgetD data "method" (.str "")
      let params := jgetD data "params" (.obj [])
      let rid := jgetD data "id" .null
      if method.isS "initialize" then
        .json (resultEnvelope rid initResult) 200
      else if method.isS "tools/list" then
        .json (resultEnvelope rid (.obj [("tools", .arr MCP_TOOLS)])) 200
      else if method.isS "tools/call" then
        if params.isObj then
          let name := jgetD params "name" .null
          let args := jgetD params "arguments" (.obj [])
          let callResult : Except String Json :=
            if name.isS "vectorize_image" then invoke "vectorize_image" args
            else if name.isS "remove_background" then invoke "remove_background" args
            else if name.isS "analyze_slide_for_redesign" then invoke "analyze_slide_for_redesign" args
            else if name.isS "extract_slide_elements" then invoke "extract_slide_elements" args
            else if name.isS "get_credits_balance" then invoke "get_credits_balance" (.obj [])
            else .ok (.obj [("error", .str "Unknown tool")])
          match callResult with
          | .error e => .raised e
          | .ok result => .json (resultEnvelope rid (textContentResult (dumpsIndent2 result))) 200
        else .raised (attrGetMsg params)
      else if method.isS "ping" then
        .json (resultEnvelope rid (.obj [])) 200
      else
        .json (errorEnvelope rid (-32601) "Method not found") 200
    else .raised (attrGetMsg data)

end Slide

namespace NbApp

/-- The `MCP_TOOLS` catalog of `notebooklm-mcp/app.py`. -/
def MCP_TOOLS : List Json := [
  .obj [("name", .str "create_notebook"), ("description", .str "Create a new NotebookLM notebook"),
    ("inputSchema", .obj [("type", .str "object"),
      ("properties", .obj [("title", .obj [("type", .str "string"), ("description", .str "Title for the notebook")])]),
      ("required", .arr [.str "title"])])],
  .obj [("name", .str "get_notebook"), ("description", .str "Get notebook details by ID"),
    ("inputSchema", .obj [("type", .str "object"),
      ("properties", .obj [("notebook_id", .obj [("type", .str "string")])]),
      ("required", .arr [.str "notebook_id"])])],
  .obj [("name", .str "list_notebooks"), ("description", .str "List recently viewed notebooks"),
    ("inputSchema", .obj [("type", .str "object"), ("properties", .obj [])])],
  .obj [("name", .str "add_source"), ("description", .str "Add a text source to a notebook"),
    ("inputSchema", .obj [("type", .str "object"),
      ("properties", .obj [
        ("notebook_id", .obj [("type", .str "string")]),
        ("content", .obj [("type", .str "string"), ("description", .str "Text content to add")]),
        ("title", .obj [("type", .str "string"), ("description", .str "Title for the source")])]),
      ("required", .arr [.str "notebook_id", .str "content"])])],
  .obj [("name", .str "add_web_source"), ("description", .str "Add a web URL as source to a notebook"),
    ("inputSchema", .obj [("type", .str "object"),
      ("properties", .obj [
        ("notebook_id", .obj [("type", .str "string")]),
        ("url", .obj [("type", .str "string"), ("description", .str "URL of web content")]),
        ("title", .obj [("type", .str "string"), ("description", .str "Display name for the source")])]),
      ("required", .arr [.str "notebook_id", .str "url"])])],
  .obj [("name", .str "add_youtube_source"), ("description", .str "Add a YouTube video as source to a notebook"),
    ("inputSchema", .obj [("type", .str "object"),
      ("properties", .obj [
        ("notebook_id", .obj [("type", .str "string")]),
        ("url", .obj [("type", .str "string"), ("description", .str "YouTube video URL")])]),
      ("required", .arr [.str "notebook_id", .str "url"])])],
  .obj [("name", .str "delete_notebook"), ("description", .str "Delete a notebook"),
    ("inputSchema", .obj [("type", .str "object"),
      ("properties", .obj [("notebook_id", .obj [("type", .str "string")])]),
      ("required", .arr [.str "notebook_id"])])],
  .obj [("name", .str "share_notebook"), ("description", .str "Share a notebook with users"),
    ("inputSchema", .obj [("type", .str "object"),
      ("properties", .obj [
        ("notebook_id", .obj [("type", .str "string")]),
        ("email", .obj [("type", .str "string")]),
        ("role", .obj [("type", .str "string"), ("description", .str "VIEWER or EDITOR")])]),
      ("required", .arr [.str "notebook_id", .str "email", .str "role"])])]]

/-- The fixed `result` of the `initialize` branch of `notebooklm-mcp/app.py`. -/
def initResult : Json :=
  .obj [("protocolVersion", .str "2024-11-05"),
    ("serverInfo", .obj [("name", .str "notebooklm-mcp"), ("version", .str "1.1.0")]),
    ("capabilities", .obj [("tools", .obj [])])]

/-- `mcp_post` of `notebooklm-mcp/app.py` (lines 119-138).  The
`tools/call` branch is a chain of `==` comparisons; `list_notebooks` is
called with no arguments; the unknown-tool text carries no name, and
there is no `notifications/initialized` branch. -/
def mcp_post (invoke : String → Json → Except String Json) (body : Except String Json) : HttpReply :=
  match body with
  | .error e => .raised e
  | .ok data =>
    if data.isObj then
      let method := jgetD data "method" (.str "")
      let params := jgetD data "params" (.obj [])
      let rid := jgetD data "id" .null
      if method.isS "initialize" then
        .json (resultEnvelope rid initResult) 200
      else if method.isS "tools/list" then
        .json (resultEnvelope rid (.obj [("tools", .arr MCP_TOOLS)])) 200
      else if method.isS "tools/call" then
        if params.isObj then
          let n := jgetD params "name" .null
          let a := jgetD params "arguments" (.obj [])
          let callResult : Except String Json :=
            if n.isS "create_notebook" then invoke "create_notebook" a
            else if n.isS "get_notebook" then invoke "get_notebook" a
            else if n.isS "list_notebooks" then invoke "list_notebooks" (.obj [])
            else if n.isS "add_source" then invoke "add_source" a
            else if n.isS "add_web_source" then invoke "add_web_source" a
            else if n.isS "add_youtube_source" then invoke "add_youtube_source" a
            else if n.isS "delete_notebook" then invoke "delete_notebook" a
            else if n.isS "share_notebook" then invoke "share_notebook" a
            else .ok (.obj [("error", .str "Unknown tool")])
          match callResult with
          | .error e => .raised e
          | .ok r => .json (resultEnvelope rid (textContentResult (dumpsIndent2 r))) 200
        else .raised (attrGetMsg params)
      else if method.isS "ping" then
        .json (resultEnvelope rid (.obj [])) 200
      else
        .json (errorEnvelope rid (-32601) "Method not found") 200
    else .raised (attrGetMsg data)

end NbApp

namespace NbServer

/-- The inline tool catalog returned by the `tools/list` branch of
`notebooklm-mcp/server.py`. -/
def toolDescriptors : List Json := [
  .obj [("name", .str "list_notebooks"), ("description", .str "List recently viewed notebooks"),
    ("inputSchema", .obj [("type", .str "object"), ("properties", .obj [])])],
  .obj [("name", .str "get_notebook"), ("description", .str "Get notebook details by ID"),
    ("inputSchema", .obj [("type", .str "object"),
      ("properties", .obj [("notebook_id", .obj [("type", .str "string")])]),
      ("required", .arr [.str "notebook_id"])])],
  .obj [("name", .str "create_notebook"), ("description", .str "Create a new NotebookLM notebook"),
    ("inputSchema", .obj [("type", .str "object"),
      ("properties", .obj [("title", .obj [("type", .str "string"), ("description", .str "Title for the notebook")])]),
      ("required", .arr [.str "title"])])],
  .obj [("name", .str "add_source"), ("description", .str "Add a text source to a notebook"),
    ("inputSchema", .obj [("type", .str "object"),
      ("properties", .obj [
        ("notebook_id", .obj [("type", .str "string")]),
        ("content", .obj [("type", .str "string"), ("description", .str "Text content to add")]),
        ("title", .obj [("type", .str "string"), ("description", .str "Title for the source")])]),
      ("required", .arr [.str "notebook_id", .str "content"])])],
  .obj [("name", .str "delete_notebook"), ("description", .str "Delete a notebook"),
    ("inputSchema", .obj [("type", .str "object"),
      ("properties", .obj [("notebook_id", .obj [("type", .str "string")])]),
      ("required", .arr [.str "notebook_id"])])],
  .obj [("name", .str "share_notebook"), ("description", .str "Share a notebook with users"),
    ("inputSchema", .obj [("type", .str "object"),
      ("properties", .obj [
        ("notebook_id", .obj [("type", .str "string")]),
        ("email", .obj [("type", .str "string")]),
        ("role", .obj [("type", .str "string"), ("description", .str "VIEWER or EDITOR")])]),
      ("required", .arr [.str "notebook_id", .str "email", .str "role"])])]]

/-- `execute_tool` of `notebooklm-mcp/server.py` (lines 164-189).
`net f xs` is the mapping returned by calling the leaf function `f` with
the positional arguments `xs` (each leaf function catches its own
exceptions and always returns a mapping).  Accessing `args.get` on a
non-dict raises an `AttributeError`, modelled as `.error`. -/
def execute_tool (net : String → List Json → Json) (tool_name args : Json) :
    Except String Json :=
  if tool_name.isS "list_notebooks" then .ok (net "list_notebooks" [])
  else if tool_name.isS "get_notebook" then
    if args.isObj then .ok (net "get_notebook" [jgetD args "notebook_id" .null])
    else .error (attrGetMsg args)
  else if tool_name.isS "create_notebook" then
    if args.isObj then .ok (net "create_notebook" [jgetD args "title" (.str "Untitled")])
    else .error (attrGetMsg args)
  else if tool_name.isS "add_source" then
    if args.isObj then
      .ok (net "add_source" [jgetD args "notebook_id" .null, jgetD args "content" .null,
        jgetD args "title" (.str "Text Source")])
    else .error (attrGetMsg args)
  else if tool_name.isS "delete_notebook" then
    if args.isObj then .ok (net "delete_notebook" [jgetD args "notebook_id" .null])
    else .error (attrGetMsg args)
  else if tool_name.isS "share_notebook" then
    if args.isObj then
      .ok (net "share_notebook" [jgetD args "notebook_id" .null, jgetD args "email" .null,
        jgetD args "role" (.str "VIEWER")])
    else .error (attrGetMsg args)
  else .ok (.obj [("success", .bool false), ("error", .str ("Unknown tool: " ++ pyStr tool_name))])

/-- `mcp_handler` of `notebooklm-mcp/server.py` (lines 74-162).  Its
replies are plain bodies, not JSON-RPC envelopes: `tools/list` returns
`\x7b"tools": [...]\x7d`, `tools/call` returns `\x7b"content": [...]\x7d`
(serialized with plain `json.dumps`, no indent), and any other method gets
`\x7b"error": "Unknown method: ..."\x7d` with HTTP status 400.  No
`jsonrpc` or `id` member is ever emitted.  `request.get_json() or \x7b\x7d`
replaces a falsy decode result by an empty dict. -/
def mcp_handler (net : String → List Json → Json) (body : Except String Json) : HttpReply :=
  match body with
  | .error e => .raised e
  | .ok dataRaw =>
    let data := if pyTruthy dataRaw then dataRaw else .obj []
    if data.isObj then
      let method := jgetD data "method" (.str "")
      let params := jgetD data "params" (.obj [])
      if method.isS "tools/list" then
        .json (.obj [("tools", .arr toolDescriptors)]) 200
      else if method.isS "tools/call" then
        if params.isObj then
          let tool_name := jgetD params "name" (.str "")
          let tool_args := jgetD params "arguments" (.obj [])
          match execute_tool net tool_name tool_args with
          | .error e => .raised e
          | .ok result =>
            .json (.obj [("content", .arr [.obj [("type", .str "text"), ("text", .str (dumpC result))]])]) 200
        else .raised (attrGetMsg params)
      else
        .json (.obj [("error", .str ("Unknown method: " ++ pyStr method))]) 400
    else .raised (attrGetMsg data)

end NbServer

namespace Simli

/-- The `TOOLS` catalog of `simli-mcp/mcp_server.py`. -/
def TOOLS : List Json := [
  .obj [("name", .str "list_agents"),
    ("description", .str "List all Simli agents/avatars in your account"),
    ("inputSchema", .obj [("type", .str "object"), ("properties", .obj []), ("required", .arr [])])],
  .obj [("name", .str "get_agent"),
    ("description", .str "Get details of a specific Simli agent by ID"),
    ("inputSchema", .obj [("type", .str "object"),
      ("properties", .obj [("agent_id", .obj [("type", .str "string"), ("description", .str "The agent ID to retrieve")])]),
      ("required", .arr [.str "agent_id"])])],
  .obj [("name", .str "update_agent"),
    ("description", .str "Update a Simli agent\x27s settings (face, name, prompt, voice, etc.)"),
    ("inputSchema", .obj [("type", .str "object"),
      ("properties", .obj [
        ("agent_id", .obj [("type", .str "string"), ("description", .str "The agent ID to update")]),
        ("name", .obj [("type", .str "string"), ("description", .str "New name for the agent")]),
        ("face_id", .obj [("type", .str "string"), ("description", .str "New face ID for the avatar")]),
        ("prompt", .obj [("type", .str "string"), ("description", .str "System prompt for the agent")]),
        ("first_message", .obj [("type", .str "string"), ("description", .str "Initial greeting message")]),
        ("voice_id", .obj [("type", .str "string"), ("description", .str "Voice ID (for ElevenLabs or Cartesia)")]),
        ("voice_provider", .obj [("type", .str "string"), ("description", .str "Voice provider: \x27elevenlabs\x27 or \x27cartesia\x27")]),
        ("max_idle_time", .obj [("type", .str "integer"), ("description", .str "Max idle time in seconds before timeout")]),
        ("max_session_length", .obj [("type", .str "integer"), ("description", .str "Max session length in seconds")])]),
      ("required", .arr [.str "agent_id"])])],
  .obj [("name", .str "create_agent"),
    ("description", .str "Create a new Simli agent/avatar"),
    ("inputSchema", .obj [("type", .str "object"),
      ("properties", .obj [
        ("name", .obj [("type", .str "string"), ("description", .str "Name for the agent")]),
        ("face_id", .obj [("type", .str "string"), ("description", .str "Face ID for the avatar")]),
        ("prompt", .obj [("type", .str "string"), ("description", .str "System prompt for the agent")]),
        ("first_message", .obj [("type", .str "string"), ("description", .str "Initial greeting message")]),
        ("voice_id", .obj [("type", .str "string"), ("description", .str "Voice ID")]),
        ("voice_provider", .obj [("type", .str "string"), ("description", .str "Voice provider: \x27elevenlabs\x27 or \x27cartesia\x27"), ("default", .str "elevenlabs")])]),
      ("required", .arr [.str "name", .str "face_id"])])],
  .obj [("name", .str "delete_agent"),
    ("description", .str "Delete a Simli agent"),
    ("inputSchema", .obj [("type", .str "object"),
      ("properties", .obj [("agent_id", .obj [("type", .str "string"), ("description", .str "The agent ID to delete")])]),
      ("required", .arr [.str "agent_id"])])],
  .obj [("name", .str "list_faces"),
    ("description", .str "List available preset face IDs for avatars"),
    ("inputSchema", .obj [("type", .str "object"), ("properties", .obj []), ("required", .arr [])])]]

/-- The optional fields `update_agent` copies from `arguments` when they
are present and not `None`, in source order. -/
def updateFields : List String :=
  ["name", "face_id", "prompt", "first_message", "voice_id", "voice_provider",
   "max_idle_time", "max_session_length"]

/-- Whether the decoded value is `None`. -/
def isNullJson : Json → Bool
  | .null => true
  | _ => false

/-- The fixed `preset_faces` mapping of the `list_faces` branch. -/
def presetFaces : Json :=
  .obj [("success", .bool true),
    ("note", .str "These are commonly available preset faces. Create custom faces at app.simli.com"),
    ("preset_faces", .arr [
      .obj [("id", .str "tmp9i8bbq7c"), ("name", .str "Default Male")],
      .obj [("id", .str "t7cR30LkYqwg"), ("name", .str "Default Female")]]),
    ("custom_faces_url", .str "https://app.simli.com/create")]

/-- `handle_tool_call` of `simli-mcp/mcp_server.py` (lines 183-247).
`sr m endpoint payload` is the mapping returned by
`simli_request(m, endpoint, payload)` — that function catches all of its
own exceptions and always returns a value, so the only raise modelled
here is the `AttributeError` from `arguments.get(...)` on a non-dict. -/
def handle_tool_call (sr : String → String → Option Json → Json) (tool_name arguments : Json) :
    Except String Json :=
  if tool_name.isS "list_agents" then
    let result := sr "GET" "/agents" none
    match result with
    | .arr xs => .ok (.obj [("success", .bool true), ("agents", .arr xs), ("count", .num (xs.length : Nat))])
    | r => .ok r
  else if tool_name.isS "get_agent" then
    if arguments.isObj then
      let agent_id := jgetD arguments "agent_id" .null
      if !pyTruthy agent_id then .ok (.obj [("error", .str "agent_id is required")])
      else .ok (sr "GET" ("/agents/" ++ pyStr agent_id) none)
    else .error (attrGetMsg arguments)
  else if tool_name.isS "update_agent" then
    if arguments.isObj then
      let agent_id := jgetD arguments "agent_id" .null
      if !pyTruthy agent_id then .ok (.obj [("error", .str "agent_id is required")])
      else
        let update_data := ("id", agent_id) :: updateFields.filterMap (fun f =>
          match jget arguments f with
          | some v => if isNullJson v then none else some (f, v)
          | none => none)
        .ok (sr "PUT" "/agents" (some (.obj update_data)))
    else .error (attrGetMsg arguments)
  else if tool_name.isS "create_agent" then
    if arguments.isObj then
      let create_data :=
        [("name", jgetD arguments "name" (.str "Untitled Agent")),
         ("face_id", jgetD arguments "face_id" .null),
         ("voice_provider", jgetD arguments "voice_provider" (.str "elevenlabs"))] ++
        (["prompt", "first_message", "voice_id"].filterMap (fun f =>
          match jget arguments f with
          | some v => if pyTruthy v then some (f, v) else none
          | none => none))
      .ok (sr "POST" "/agents" (some (.obj create_data)))
    else .error (attrGetMsg arguments)
  else if tool_name.isS "delete_agent" then
    if arguments.isObj then
      let agent_id := jgetD arguments "agent_id" .null
      if !pyTruthy agent_id then .ok (.obj [("error", .str "agent_id is required")])
      else .ok (sr "DELETE" ("/agents/" ++ pyStr agent_id) none)
    else .error (attrGetMsg arguments)
  else if tool_name.isS "list_faces" then .ok presetFaces
  else .ok (.obj [("error", .str ("Unknown tool: " ++ pyStr tool_name))])

/-- The fixed `result` of the `initialize` branch of `simli-mcp/mcp_server.py`. -/
def initResult : Json :=
  .obj [("protocolVersion", .str "2024-11-05"),
    ("serverInfo", .obj [("name", .str "simli-mcp"), ("version", .str "1.1.0")]),
    ("capabilities", .obj [("tools", .obj [("listChanged", .bool false)])])]

/-- The body of the `try` block of `mcp_handler` (lines 255-303):
`.error e` is an exception with text `e` escaping to the `except` clause.
There is no `ping` branch; `notifications/initialized` returns `"", 204`;
the unknown-method error text is `Unknown method: ...`. -/
def handlerTry (sr : String → String → Option Json → Json) (body : Except String Json) :
    Except String HttpReply :=
  match body with
  | .error e => .error e
  | .ok data =>
    if data.isObj then
      let method := jgetD data "method" .null
      let req_id := jgetD data "id" .null
      if method.isS "initialize" then
        .ok (.json (resultEnvelope req_id initResult) 200)
      else if method.isS "tools/list" then
        .ok (.json (resultEnvelope req_id (.obj [("tools", .arr TOOLS)])) 200)
      else if method.isS "tools/call" then
        let params := jgetD data "params" (.obj [])
        if params.isObj then
          let tool_name := jgetD params "name" .null
          let arguments := jgetD params "arguments" (.obj [])
          match handle_tool_call sr tool_name arguments with
          | .error e => .error e
          | .ok result =>
            .ok (.json (resultEnvelope req_id (textContentResult (dumpsIndent2 result))) 200)
        else .error (attrGetMsg params)
      else if method.isS "notifications/initialized" then
        .ok (.empty 204)
      else
        .ok (.json (errorEnvelope req_id (-32601) ("Unknown method: " ++ pyStr method)) 200)
    else .error (attrGetMsg data)

/-- `mcp_handler` of `simli-mcp/mcp_server.py` (lines 252-310): the whole
body runs inside `try`; any exception is answered with
`\x7b"jsonrpc": "2.0", "id": None, "error": \x7b"code": -32603,
"message": str(e)\x7d\x7d`, HTTP 200 — the `id` on this path is always
`null`, whatever the request carried. -/
def mcp_handler (sr : String → String → Option Json → Json) (body : Except String Json) : HttpReply :=
  match handlerTry sr body with
  | .ok r => r
  | .error e => .json (errorEnvelope .null (-32603) e) 200

end Simli

/-- C2 counterexample: a `tools/call` for the unregistered name `nope`
(id 1) yields a JSON-RPC **result** envelope whose text is
`Unknown tool: nope` — not an error envelope with code -32602 or -32601
(its `error.code` is absent).  The oracle models every handler as raising,
so the reply also shows no handler outcome was involved. -/
theorem C2_counterexample :
    Figma.mcp_post (fun _ _ => .error "handler invoked")
        (.ok (toolCallReq (.num 1) (.str "nope") (.obj []))) =
      .json (resultEnvelope (.num 1) (textContentResult
        (dumpsIndent2 (.obj [("error", .str "Unknown tool: nope")])))) 200 ∧
    respErrorCode (Figma.mcp_post (fun _ _ => .error "handler invoked")
        (.ok (toolCallReq (.num 1) (.str "nope") (.obj [])))) = none :=
  ⟨rfl, rfl⟩

/-- C2 (amended): a `tools/call` whose `params.name` is a string not in
the registry never invokes any handler (the reply is the same for every
handler oracle) and returns a JSON-RPC **result** envelope whose single
text block reads `Unknown tool: <name>` — not a protocol error envelope. -/
theorem C2_amended :
    ∀ (invoke invoke' : String → Json → Except String Json) (rid args : Json) (s : String),
      s ∉ Figma.toolNames → s ∉ Vertex.toolNames →
      (Figma.mcp_post invoke (.ok (toolCallReq rid (.str s) args)) =
        .json (resultEnvelope rid (textContentResult
          (dumpsIndent2 (.obj [("error", .str ("Unknown tool: " ++ s))])))) 200) ∧
      (Figma.mcp_post invoke (.ok (toolCallReq rid (.str s) args)) =
        Figma.mcp_post invoke' (.ok (toolCallReq rid (.str s) args))) ∧
      (Vertex.mcp_post invoke (.ok (toolCallReq rid (.str s) args)) =
        .json (resultEnvelope rid (textContentResult
          (dumpsIndent2 (.obj [("error", .str ("Unknown tool: " ++ s))])))) 200) := by
  intro invoke invoke' rid args s hf hv
  refine ⟨?_, ?_, ?_⟩ <;>
    simp [Figma.mcp_post, Vertex.mcp_post, toolCallReq, jgetD, jget, jlookup,
      Json.isS, Json.isObj, hf, hv]

/-- C2 witness: instantiating the amended theorem at the concrete
unregistered name `missing_tool`. -/
theorem C2_witness :
    respErrorCode (Figma.mcp_post (fun _ _ => .ok .null)
      (.ok (toolCallReq .null (.str "missing_tool") (.obj [])))) = none := by
  have h := C2_amended (fun _ _ => .ok .null) (fun _ _ => .ok .null) .null (.obj [])
    "missing_tool" (by decide) (by decide)
  rw [h.1]
  rfl

/-- C6 counterexample: a `tools/call` whose params lack `name` (id 2) is
not rejected with -32602; the figma dispatcher falls into the unknown-tool
path with `name = None` and returns a **result** envelope whose text is
`Unknown tool: None` — `error.code` is absent. -/
theorem C6_counterexample :
    Figma.mcp_post (fun _ _ => .ok .null)
        (.ok (.obj [("jsonrpc", .str "2.0"), ("id", .num 2), ("method", .str "tools/call"),
          ("params", .obj [("arguments", .obj [])])])) =
      .json (resultEnvelope (.num 2) (textContentResult
        (dumpsIndent2 (.obj [("error", .str "Unknown tool: None")])))) 200 ∧
    respErrorCode (Figma.mcp_post (fun _ _ => .ok .null)
        (.ok (.obj [("jsonrpc", .str "2.0"), ("id", .num 2), ("method", .str "tools/call"),
          ("params", .obj [("arguments", .obj [])])]))) = none ∧
    dumpsIndent2 (.obj [("error", .str "Unknown tool: None")]) =
      "\x7b\n  \"error\": \"Unknown tool: None\"\n\x7d" :=
  ⟨rfl, rfl, rfl⟩

/-- C6 (amended): for every `tools/call` whose `params` lack `name`, the
figma dispatcher returns a **result** envelope whose text is
`Unknown tool: None` and the notebooklm app dispatcher one whose text is
`Unknown tool`; neither emits a -32602 error envelope. -/
theorem C6_amended :
    ∀ (invoke : String → Json → Except String Json) (rid args : Json),
      (Figma.mcp_post invoke (.ok (.obj [("jsonrpc", .str "2.0"), ("id", rid),
          ("method", .str "tools/call"), ("params", .obj [("arguments", args)])])) =
        .json (resultEnvelope rid (textContentResult
          (dumpsIndent2 (.obj [("error", .str "Unknown tool: None")])))) 200) ∧
      (NbApp.mcp_post invoke (.ok (.obj [("jsonrpc", .str "2.0"), ("id", rid),
          ("method", .str "tools/call"), ("params", .obj [("arguments", args)])])) =
        .json (resultEnvelope rid (textContentResult
          (dumpsIndent2 (.obj [("error", .str "Unknown tool")])))) 200) ∧
      respErrorCode (Figma.mcp_post invoke (.ok (.obj [("jsonrpc", .str "2.0"), ("id", rid),
          ("method", .str "tools/call"), ("params", .obj [("arguments", args)])]))) = none :=
  fun _ _ _ => ⟨rfl, rfl, rfl⟩

/-- C7 counterexample: the figma dispatcher has no
`notifications/initialized` branch; the notification (id 5) falls through
to the error envelope with code -32601. -/
theorem C7_counterexample :
    Figma.mcp_post (fun _ _ => .ok .null) (.ok (rpcReq (.num 5) "notifications/initialized")) =
      .json (errorEnvelope (.num 5) (-32601) "Method not found") 200 ∧
    respErrorCode (Figma.mcp_post (fun _ _ => .ok .null)
      (.ok (rpcReq (.num 5) "notifications/initialized"))) = some (-32601) :=
  ⟨rfl, rfl⟩

/-- C7 (amended): only the simli dispatcher acknowledges
`notifications/initialized`, with an empty 204 reply; the figma and
slide-transform dispatchers reject it with a -32601
`Method not found` error envelope. -/
theorem C7_amended :
    ∀ (invoke : String → Json → Except String Json)
      (sr : String → String → Option Json → Json) (rid : Json),
      (Simli.mcp_handler sr (.ok (rpcReq rid "notifications/initialized")) = .empty 204) ∧
      (Figma.mcp_post invoke (.ok (rpcReq rid "notifications/initialized")) =
        .json (errorEnvelope rid (-32601) "Method not found") 200) ∧
      (Slide.mcp_post invoke (.ok (rpcReq rid "notifications/initialized")) =
        .json (errorEnvelope rid (-32601) "Method not found") 200) :=
  fun _ _ _ => ⟨rfl, rfl, rfl⟩

/-- C8 counterexample: a malformed body makes `request.get_json()` raise
and the exception escapes `mcp_post` — no JSON-RPC envelope (so no
-32700); a request without a `method` (id 4) falls through to the
-32601 `Method not found` envelope, which is not -32600. -/
theorem C8_counterexample :
    Figma.mcp_post (fun _ _ => .ok .null)
        (.error "Expecting value: line 1 column 1 (char 0)") =
      .raised "Expecting value: line 1 column 1 (char 0)" ∧
    Figma.mcp_post (fun _ _ => .ok .null) (.ok (.obj [("id", .num 4)])) =
      .json (errorEnvelope (.num 4) (-32601) "Method not found") 200 ∧
    respErrorCode (Figma.mcp_post (fun _ _ => .ok .null) (.ok (.obj [("id", .num 4)]))) =
      some (-32601) ∧
    (some (-32601 : Rat) ≠ some (-32600 : Rat)) :=
  ⟨rfl, rfl, rfl, by decide⟩

/-- C8 (amended): a body that fails to decode raises out of the figma and
notebooklm server dispatchers (Flask renders a plain error page; no
JSON-RPC envelope, in particular no -32700); a request whose `method` is
absent or not a string falls through to the -32601 `Method not found`
envelope in the figma dispatcher (never -32600). -/
theorem C8_amended :
    ∀ (invoke : String → Json → Except String Json) (net : String → List Json → Json)
      (e : String) (rid : Json),
      (Figma.mcp_post invoke (.error e) = .raised e) ∧
      (NbServer.mcp_handler net (.error e) = .raised e) ∧
      (Figma.mcp_post invoke (.ok (.obj [("id", rid)])) =
        .json (errorEnvelope rid (-32601) "Method not found") 200) ∧
      (Figma.mcp_post invoke (.ok (.obj [("id", rid), ("method", .num 5)])) =
        .json (errorEnvelope rid (-32601) "Method not found") 200) :=
  fun _ _ _ _ => ⟨rfl, rfl, rfl, rfl⟩

/-- C9: `tools/list` is deterministic (the reply does not depend on the
handler oracle, and repeating the request gives the same reply) and total:
the `result` is exactly `\x7b"tools": MCP_TOOLS\x7d`, the whole catalog in
source order, for both the figma and the vertex dispatchers. -/
theorem C9_tools_list_snapshot :
    ∀ (invoke invoke' : String → Json → Except String Json) (rid : Json),
      (Figma.mcp_post invoke (.ok (rpcReq rid "tools/list")) =
        .json (resultEnvelope rid (.obj [("tools", .arr Figma.MCP_TOOLS)])) 200) ∧
      (Figma.mcp_post invoke (.ok (rpcReq rid "tools/list")) =
        Figma.mcp_post invoke' (.ok (rpcReq rid "tools/list"))) ∧
      (Vertex.mcp_post invoke (.ok (rpcReq rid "tools/list")) =
        .json (resultEnvelope rid (.obj [("tools", .arr Vertex.MCP_TOOLS)])) 200) ∧
      (Vertex.mcp_post invoke (.ok (rpcReq rid "tools/list")) =
        Vertex.mcp_post invoke' (.ok (rpcReq rid "tools/list"))) :=
  fun _ _ _ => ⟨rfl, rfl, rfl, rfl⟩

/-- C1 counterexample: the notebooklm `server.py` handler answers a
`tools/list` request carrying id 7 with the bare body
`\x7b"tools": [...]\x7d` — no `id` member at all, so the response does not
echo the request id. -/
theorem C1_counterexample :
    NbServer.mcp_handler (fun _ _ => .null) (.ok (rpcReq (.num 7) "tools/list")) =
      .json (.obj [("tools", .arr NbServer.toolDescriptors)]) 200 ∧
    respId (NbServer.mcp_handler (fun _ _ => .null) (.ok (rpcReq (.num 7) "tools/list"))) = none ∧
    jgetD (rpcReq (.num 7) "tools/list") "id" .null = .num 7 :=
  ⟨rfl, rfl, rfl⟩

/-- C1 (amended): every JSON body the figma dispatcher replies with
carries an `id` equal to the request's `data.get("id")` (absent id read
as `null`; null, string and number ids are echoed verbatim), while the
notebooklm `server.py` handler emits bodies with no `id` member at all. -/
theorem C1_amended :
    (∀ (invoke : String → Json → Except String Json) (d env : Json) (st : Nat),
      Figma.mcp_post invoke (.ok d) = .json env st →
      jget env "id" = some (jgetD d "id" .null)) ∧
    (∀ (net : String → List Json → Json) (rid : Json),
      respId (NbServer.mcp_handler net (.ok (rpcReq rid "tools/list"))) = none) := by
  constructor
  · intro invoke d env st h
    simp only [Figma.mcp_post] at h
    repeat' split at h
    all_goals cases h
    all_goals rfl
  · intro net rid
    rfl

/-- C1 witness: the amended theorem applied to concrete `ping`,
`initialize` and `tools/call` requests with a number, a string and a null
id respectively. -/
theorem C1_witness :
    jget (resultEnvelope (.num 7) (.obj [])) "id" =
      some (jgetD (rpcReq (.num 7) "ping") "id" .null) ∧
    jget (resultEnvelope (.str "abc") Figma.initResult) "id" =
      some (jgetD (rpcReq (.str "abc") "initialize") "id" .null) ∧
    jget (errorEnvelope .null (-32601) "Method not found") "id" =
      some (jgetD (rpcReq .null "nonsense") "id" .null) :=
  ⟨C1_amended.1 (fun _ _ => .ok .null) (rpcReq (.num 7) "ping") _ 200 rfl,
   C1_amended.1 (fun _ _ => .ok .null) (rpcReq (.str "abc") "initialize") _ 200 rfl,
   C1_amended.1 (fun _ _ => .ok .null) (rpcReq .null "nonsense") _ 200 rfl⟩

/-- C3 counterexample: a handler call that raises (here the `TypeError`
from binding an unexpected keyword argument) escapes the figma dispatcher
— the reply is the exception, not a JSON-RPC envelope with a
`result.content` text block; and in the simli dispatcher an exception
while handling a `tools/call` (non-mapping `arguments`) is answered with
an **error** envelope (code -32603), not a `result.content` block. -/
theorem C3_counterexample :
    Figma.mcp_post
        (fun _ _ => .error "get_me() got an unexpected keyword argument \x27bogus\x27")
        (.ok (toolCallReq (.num 3) (.str "get_me") (.obj [("bogus", .num 1)]))) =
      .raised "get_me() got an unexpected keyword argument \x27bogus\x27" ∧
    Simli.mcp_handler (fun _ _ _ => .obj [])
        (.ok (toolCallReq (.num 3) (.str "get_agent") (.num 5))) =
      .json (errorEnvelope .null (-32603) (attrGetMsg (.num 5))) 200 :=
  ⟨rfl, rfl⟩

/-- C3 (amended): the figma dispatcher does not catch handler exceptions —
a raising handler call escapes and no JSON-RPC envelope is produced; the
simli dispatcher catches every exception raised while handling a request
and answers with a well-formed JSON-RPC **error** envelope, code -32603
and id null, whose message describes the exception — not with a
`result.content` text block. -/
theorem C3_amended :
    (∀ (invoke : String → Json → Except String Json) (rid args : Json) (s e : String),
      s ∈ Figma.toolNames → invoke s args = .error e →
      Figma.mcp_post invoke (.ok (toolCallReq rid (.str s) args)) = .raised e) ∧
    (∀ (sr : String → String → Option Json → Json) (rid args : Json),
      args.isObj = false →
      Simli.mcp_handler sr (.ok (toolCallReq rid (.str "get_agent") args)) =
        .json (errorEnvelope .null (-32603) (attrGetMsg args)) 200) := by
  constructor
  · intro invoke rid args s e hs hres
    simp [Figma.mcp_post, toolCallReq, jgetD, jget, jlookup, Json.isS, Json.isObj, hs, hres]
  · intro sr rid args hargs
    cases args with
    | obj ms => simp [Json.isObj] at hargs
    | null => rfl
    | bool b => rfl
    | num q => rfl
    | str s => rfl
    | arr xs => rfl

/-- C3 witness: the amended theorem applied to a raising `get_file`
handler (figma) and a `tools/call` with list-valued `arguments` (simli). -/
theorem C3_witness :
    Figma.mcp_post (fun _ _ => .error "boom")
        (.ok (toolCallReq .null (.str "get_file") (.obj []))) = .raised "boom" ∧
    Simli.mcp_handler (fun _ _ _ => .null)
        (.ok (toolCallReq .null (.str "get_agent") (.arr []))) =
      .json (errorEnvelope .null (-32603) (attrGetMsg (.arr []))) 200 :=
  ⟨C3_amended.1 (fun _ _ => .error "boom") .null (.obj []) "get_file" "boom" (by decide) rfl,
   C3_amended.2 (fun _ _ _ => .null) .null (.arr []) rfl⟩

/-- Serialized form of a handler failure mapping
`\x7b"success": False, "error": msg\x7d` under `json.dumps(..., indent=2)`:
a fixed prefix containing `"success": false`, then the quoted message. -/
theorem dumps_success_false (msg : String) :
    dumpsIndent2 (.obj [("success", .bool false), ("error", .str msg)]) =
      "\x7b\n  \"success\": false" ++ (",\n  \"error\": " ++ (quoteJson msg ++ "\n\x7d")) := by
  have h1 : quoteJson "success" = "\"success\"" := rfl
  have h2 : quoteJson "error" = "\"error\"" := rfl
  simp [dumpsIndent2, dumpsVal, dumpsMembers, spaces, h1, h2, String.append_assoc]

/-- The serialized handler failure contains `"success": false`. -/
theorem dumps_success_false_contains (msg : String) :
    strContains "\"success\": false"
      (dumpsIndent2 (.obj [("success", .bool false), ("error", .str msg)])) := by
  rw [dumps_success_false]
  exact strContains_extend _ _ _ ⟨"\x7b\n  ", "", by rfl⟩

/-- C4: a `tools/call` for a registered tool whose handler returns
`\x7b"success": False, "error": msg\x7d` yields a JSON-RPC **result**
envelope (its `error.code` is absent) whose single text content block is
the serialized mapping, which contains `"success": false`; the same holds
in the simli dispatcher (here via `get_agent`, whose branch returns the
`simli_request` mapping unchanged).  The failure is never escalated to a
protocol error. -/
theorem C4_success_false_folded :
    (∀ (invoke : String → Json → Except String Json) (rid args : Json) (s msg : String),
      s ∈ Figma.toolNames →
      invoke s args = .ok (.obj [("success", .bool false), ("error", .str msg)]) →
      Figma.mcp_post invoke (.ok (toolCallReq rid (.str s) args)) =
        .json (resultEnvelope rid (textContentResult
          (dumpsIndent2 (.obj [("success", .bool false), ("error", .str msg)])))) 200 ∧
      strContains "\"success\": false"
        (dumpsIndent2 (.obj [("success", .bool false), ("error", .str msg)])) ∧
      respErrorCode (Figma.mcp_post invoke (.ok (toolCallReq rid (.str s) args))) = none) ∧
    (∀ (sr : String → String → Option Json → Json) (rid : Json) (msg : String),
      sr "GET" "/agents/a1" none = .obj [("success", .bool false), ("error", .str msg)] →
      Simli.mcp_handler sr (.ok (toolCallReq rid (.str "get_agent")
          (.obj [("agent_id", .str "a1")]))) =
        .json (resultEnvelope rid (textContentResult
          (dumpsIndent2 (.obj [("success", .bool false), ("error", .str msg)])))) 200) := by
  constructor
  · intro invoke rid args s msg hs hres
    have henv : Figma.mcp_post invoke (.ok (toolCallReq rid (.str s) args)) =
        .json (resultEnvelope rid (textContentResult
          (dumpsIndent2 (.obj [("success", .bool false), ("error", .str msg)])))) 200 := by
      simp [Figma.mcp_post, toolCallReq, jgetD, jget, jlookup, Json.isS, Json.isObj, hs, hres]
    refine ⟨henv, dumps_success_false_contains msg, ?_⟩
    rw [henv]
    rfl
  · intro sr rid msg hsr
    have harg : ("/agents/" ++ pyStr (Json.str "a1")) = "/agents/a1" := rfl
    simp [Simli.mcp_handler, Simli.handlerTry, Simli.handle_tool_call, toolCallReq,
      jgetD, jget, jlookup, Json.isS, Json.isObj, pyTruthy, pyStr, harg, hsr]

/-- C4 witness: the theorem applied to a concrete failing `get_me` call
(figma) and a concrete failing `get_agent` call (simli). -/
theorem C4_witness :
    strContains "\"success\": false"
      (dumpsIndent2 (.obj [("success", .bool false),
        ("error", .str "Figma token not configured")])) ∧
    Simli.mcp_handler (fun _ _ _ => .obj [("success", .bool false), ("error", .str "x")])
        (.ok (toolCallReq (.num 7) (.str "get_agent") (.obj [("agent_id", .str "a1")]))) =
      .json (resultEnvelope (.num 7) (textContentResult
        (dumpsIndent2 (.obj [("success", .bool false), ("error", .str "x")])))) 200 :=
  ⟨(C4_success_false_folded.1
      (fun _ _ => .ok (.obj [("success", .bool false), ("error", .str "Figma token not configured")]))
      (.num 7) (.obj []) "get_me" "Figma token not configured" (by decide) rfl).2.1,
   C4_success_false_folded.2
      (fun _ _ _ => .obj [("success", .bool false), ("error", .str "x")]) (.num 7) "x" rfl⟩

/-- C5 counterexample: for the unknown method `foo` (id 1) the figma
dispatcher answers -32601 with the fixed message `Method not found` —
not `Method not found: foo` — and the simli dispatcher answers -32601
with `Unknown method: foo`. -/
theorem C5_counterexample :
    Figma.mcp_post (fun _ _ => .ok .null) (.ok (rpcReq (.num 1) "foo")) =
      .json (errorEnvelope (.num 1) (-32601) "Method not found") 200 ∧
    ("Method not found" : String) ≠ "Method not found: foo" ∧
    Simli.mcp_handler (fun _ _ _ => .null) (.ok (rpcReq (.num 1) "foo")) =
      .json (errorEnvelope (.num 1) (-32601) "Unknown method: foo") 200 ∧
    ("Unknown method: foo" : String) ≠ "Method not found: foo" :=
  ⟨rfl, by decide, rfl, by decide⟩

/-- C5 (amended): a method outside the recognized set is rejected with an
error envelope of code -32601 in the figma, notebooklm-app and simli
dispatchers, but the message never has the form `Method not found:
<method>`: figma and notebooklm-app use the fixed text `Method not found`
(no method name embedded), and simli uses `Unknown method: <method>`. -/
theorem C5_amended :
    ∀ (invoke : String → Json → Except String Json)
      (sr : String → String → Option Json → Json) (rid : Json) (m : String),
      m ∉ (["initialize", "tools/list", "tools/call", "ping",
        "notifications/initialized"] : List String) →
      (Figma.mcp_post invoke (.ok (rpcReq rid m)) =
        .json (errorEnvelope rid (-32601) "Method not found") 200) ∧
      (NbApp.mcp_post invoke (.ok (rpcReq rid m)) =
        .json (errorEnvelope rid (-32601) "Method not found") 200) ∧
      (Simli.mcp_handler sr (.ok (rpcReq rid m)) =
        .json (errorEnvelope rid (-32601) ("Unknown method: " ++ m)) 200) := by
  intro invoke sr rid m hm
  simp only [List.mem_cons, List.not_mem_nil, or_false, not_or] at hm
  obtain ⟨h1, h2, h3, h4, h5⟩ := hm
  refine ⟨?_, ?_, ?_⟩ <;>
    simp [Figma.mcp_post, NbApp.mcp_post, Simli.mcp_handler, Simli.handlerTry, rpcReq,
      jgetD, jget, jlookup, Json.isS, Json.isObj, pyStr, h1, h2, h3, h4, h5]

/-- C5 witness: the amended theorem applied to the unknown method
`tools/delete`. -/
theorem C5_witness :
    NbApp.mcp_post (fun _ _ => .ok .null) (.ok (rpcReq .null "tools/delete")) =
      .json (errorEnvelope .null (-32601) "Method not found") 200 :=
  (C5_amended (fun _ _ => .ok .null) (fun _ _ _ => .null) .null "tools/delete"
    (by decide)).2.1

/-- C10: any exception while the simli handler processes a POSTed message
— a body that fails to parse as JSON, or an `AttributeError` while
handling a `tools/call` with non-mapping `arguments` — is answered with a
JSON-RPC error envelope of code -32603 whose `id` is `null`, whatever id
the request carried. -/
theorem C10_simli_catchall :
    ∀ (sr : String → String → Option Json → Json) (e : String) (rid args : Json),
      (Simli.mcp_handler sr (.error e) = .json (errorEnvelope .null (-32603) e) 200) ∧
      (respId (Simli.mcp_handler sr (.error e)) = some .null) ∧
      (args.isObj = false →
        Simli.mcp_handler sr (.ok (toolCallReq rid (.str "create_agent") args)) =
          .json (errorEnvelope .null (-32603) (attrGetMsg args)) 200) := by
  intro sr e rid args
  refine ⟨rfl, rfl, ?_⟩
  intro hargs
  cases args with
  | obj ms => simp [Json.isObj] at hargs
  | null => rfl
  | bool b => rfl
  | num q => rfl
  | str s => rfl
  | arr xs => rfl

/-- C10 witness: the catch-all applied to a malformed body and to a
`tools/call` carrying id 7 and a string `arguments` value — the reply id
is `null`, not 7. -/
theorem C10_witness :
    Simli.mcp_handler (fun _ _ _ => .null) (.error "Expecting value: line 1 column 1 (char 0)") =
      .json (errorEnvelope .null (-32603) "Expecting value: line 1 column 1 (char 0)") 200 ∧
    Simli.mcp_handler (fun _ _ _ => .null)
        (.ok (toolCallReq (.num 7) (.str "create_agent") (.str "oops"))) =
      .json (errorEnvelope .null (-32603) (attrGetMsg (.str "oops"))) 200 :=
  ⟨(C10_simli_catchall (fun _ _ _ => .null) "Expecting value: line 1 column 1 (char 0)"
      .null .null).1,
   (C10_simli_catchall (fun _ _ _ => .null) "x" (.num 7) (.str "oops")).2.2 rfl⟩
